import Mathlib

/-!
Shallow embedding of the serving gateway in `lcserve/backend/gateway.py`:
route registration (`_register_route`), result-type resolution
(`_get_result_type`), the HTTP invocation handler (`_create_http_route`),
the WebSocket session loop (`_create_ws_route`), the human-in-the-loop
`InputWrapper`, and the environment-override scope guard.
-/

namespace LCServe

/-- The process environment: a partial map from variable names to values. -/
abbrev Env := String → Option String

/-- Last-wins lookup in an association list, matching Python dict /
`os.environ` update semantics where later assignments overwrite earlier
ones. -/
def lookupLast {β : Type} : List (String × β) → String → Option β
  | [], _ => none
  | kv :: rest, q =>
    match lookupLast rest q with
    | some v => some v
    | none => if kv.1 = q then some kv.2 else none

/-- Apply each override into the environment, left to right
(`os.environ[key] = value` for each item). -/
def setEnvs (env : Env) : List (String × String) → Env
  | [] => env
  | kv :: rest => setEnvs (fun q => if q = kv.1 then some kv.2 else env q) rest

/-- Write saved prior values back, left to right; a saved `none` deletes the
key (the key was previously absent). -/
def restoreEnv (env : Env) : List (String × Option String) → Env
  | [] => env
  | kv :: rest => restoreEnv (fun q => if q = kv.1 then kv.2 else env q) rest

/-- Modelled from the spec: `EnvironmentVarCtxtManager` lives in
`lcserve/backend/playground/utils/helper.py`, which is not among the source
files. Per the spec it applies each key/value into the process environment,
invokes the body, and on every exit path restores the prior values, deleting
keys that were previously absent. `withEnv` saves the prior value of every
overridden key, applies the overrides, runs the body on the resulting
environment, and restores the saved values; the body's outcome (normal or
raising) is opaque here, so restoration is unconditional. -/
def withEnv {β : Type} (ov : List (String × String)) (body : Env → β) (env : Env) : β × Env :=
  let saved := ov.map fun kv => (kv.1, env kv.1)
  let env1 := setEnvs env ov
  (body env1, restoreEnv env1 saved)

theorem setEnvs_apply (ov : List (String × String)) (env : Env) (q : String) :
    setEnvs env ov q =
      match lookupLast ov q with
      | some v => some v
      | none => env q := by
  induction ov generalizing env with
  | nil => rfl
  | cons kv rest ih =>
    simp only [setEnvs, lookupLast]
    rw [ih]
    cases lookupLast rest q with
    | some v => rfl
    | none =>
      by_cases h : q = kv.1
      · subst h; simp
      · simp [h, Ne.symm h]

theorem restoreEnv_apply (saved : List (String × Option String)) (env : Env) (q : String) :
    restoreEnv env saved q =
      match lookupLast saved q with
      | some w => w
      | none => env q := by
  induction saved generalizing env with
  | nil => rfl
  | cons kv rest ih =>
    simp only [restoreEnv, lookupLast]
    rw [ih]
    cases lookupLast rest q with
    | some v => rfl
    | none =>
      by_cases h : q = kv.1
      · subst h; simp
      · simp [h, Ne.symm h]

theorem lookupLast_map_fst (ov : List (String × String)) (f : String → Option String)
    (q : String) :
    lookupLast (ov.map fun kv => (kv.1, f kv.1)) q =
      Option.map (fun _ => f q) (lookupLast ov q) := by
  induction ov with
  | nil => rfl
  | cons kv rest ih =>
    simp only [List.map, lookupLast]
    rw [ih]
    cases lookupLast rest q with
    | some v => rfl
    | none =>
      by_cases h : kv.1 = q
      · subst h; simp
      · simp [h]

theorem lookupLast_eq_none {β : Type} (l : List (String × β)) (k : String)
    (h : k ∉ l.map Prod.fst) : lookupLast l k = none := by
  induction l with
  | nil => rfl
  | cons kv rest ih =>
    simp only [List.map, List.mem_cons, not_or] at h
    simp only [lookupLast]
    rw [ih h.2]
    simp [Ne.symm h.1]

theorem lookupLast_of_nodup (ov : List (String × String)) (k v : String)
    (hnd : (ov.map Prod.fst).Nodup) (hm : (k, v) ∈ ov) : lookupLast ov k = some v := by
  induction ov with
  | nil => cases hm
  | cons kv rest ih =>
    simp only [List.map, List.nodup_cons] at hnd
    rcases List.mem_cons.mp hm with h | h
    · subst h
      simp only [lookupLast]
      rw [lookupLast_eq_none rest k hnd.1]
      simp
    · simp only [lookupLast]
      rw [ih hnd.2 h]

theorem withEnv_snd {β : Type} (ov : List (String × String)) (body : Env → β)
    (env : Env) (q : String) : (withEnv ov body env).2 q = env q := by
  simp only [withEnv]
  rw [restoreEnv_apply, lookupLast_map_fst]
  cases h : lookupLast ov q with
  | some v => simp
  | none => simp [setEnvs_apply, h]

/-- What one call of the served function does: the lines it prints to stdout
while running and its outcome; `Except.error e` models raising an exception
whose textual description (`str(e)`) is `e`. The behaviour may depend on the
process environment the function observes. -/
structure FuncBehavior (α : Type) where
  prints : List String
  outcome : Except String α

/-- The generated output model (`_output_model_fields` in `_register_route`):
fields `result`, `error` and `stdout`. -/
structure OutputSchema (α : Type) where
  result : α
  error : String
  stdout : String

/-- The HTTP handler `_create_http_route`: extract `envs` from the validated
input, run the function under the environment-override guard while capturing
printed lines, and build the output model. `dflt` is the value the `result`
field receives from the initial `output = ''` when the function raised.
`Capturing` (from the helper module, not among the source files) is modelled
from the spec: it collects the text printed during the block, which the
handler joins with newlines; the handler's own diagnostic print on an
exception happens inside the capture region, so it is appended to the
captured lines. Returns the response together with the process environment
after the handler finishes. -/
def _create_http_route {α : Type} (dflt : α) (func : Env → FuncBehavior α)
    (envs : List (String × String)) (env : Env) : OutputSchema α × Env :=
  withEnv envs
    (fun e =>
      let b := func e
      match b.outcome with
      | Except.ok v =>
        { result := v, error := "", stdout := String.intercalate "\n" b.prints }
      | Except.error err =>
        { result := dflt, error := err,
          stdout := String.intercalate "\n" (b.prints ++ ["Got an exception: " ++ err]) })
    env

/-- Events a WebSocket session emits towards the client: an Output message
(`websocket.send_text(output_model(...).json())`) or the close signal
(`websocket.close()`). -/
inductive WsEvent (α : Type) where
  | sendOutput (result : α) (error : String)
  | close

/-- One client message for the session loop: a payload that validates against
the input model, carrying the parsed input and its `envs` field, or a payload
whose validation raises `ValidationError` with the given detail. -/
inductive ClientMsg (Input : Type) where
  | valid (inp : Input) (envs : List (String × String))
  | invalid (detail : String)

/-- Outcome of calling a function without the streaming-response annotation:
either it returned a generator object (`inspect.isgenerator` is true) that
yields `yielded` and then exhausts (`raised = none`) or raises mid-iteration
(`raised = some e`), or it returned a plain value. -/
inductive PlainResult (α : Type) where
  | genRes (yielded : List α) (raised : Option String)
  | valRes (v : α)

/-- One call of a function whose return annotation is the
`StreamingResponse` sentinel: the tokens it pushes through the two websocket
callback handlers it was handed (in call order; each `on_llm_new_token`
sends one Output message) and its outcome — the returned value or a raised
exception. -/
structure StreamRun (α : Type) where
  tokens : List α
  outcome : Except String α

/-- The dispatch mode fixed by
`is_type_streaming_response(inspect.signature(func).return_annotation)`:
streaming functions receive the callback handlers, all others are called
directly. -/
inductive WsDispatch (Input α : Type) where
  | streaming (run : Input → Env → StreamRun α)
  | plain (run : Input → Env → Except String (PlainResult α))

/-- Result of one WebSocket session: the events sent to the client, the
inputs the served function was actually invoked on, and the final process
environment. -/
structure WsRun (Input α : Type) where
  events : List (WsEvent α)
  calls : List Input
  finalEnv : Env

/-- One iteration body of `_create_ws_route` after validation, under
`EnvironmentVarCtxtManager`: the events sent, whether the session was closed
(generator exhausted: close then break), and the environment afterwards.
Streaming mode sends one Output per pushed token (`result` = token, `error`
empty) and ignores the function's return value. A plain call that raises, or
a generator raising mid-iteration, sends no further event (the error is only
printed) and does not close. -/
def wsDispatchStep {Input α : Type} (dp : WsDispatch Input α) (inp : Input)
    (envs : List (String × String)) (env : Env) :
    List (WsEvent α) × Bool × Env :=
  let r := withEnv envs
    (fun e =>
      match dp with
      | WsDispatch.streaming run =>
        ((run inp e).tokens.map fun t => WsEvent.sendOutput t "", false)
      | WsDispatch.plain run =>
        match run inp e with
        | Except.error _ => ([], false)
        | Except.ok (PlainResult.valRes v) => ([WsEvent.sendOutput v ""], false)
        | Except.ok (PlainResult.genRes ys raised) =>
          match raised with
          | none => ((ys.map fun y => WsEvent.sendOutput y "") ++ [WsEvent.close], true)
          | some _ => (ys.map fun y => WsEvent.sendOutput y "", false))
    env
  (r.1.1, r.1.2, r.2)

/-- The WebSocket session loop of `_create_ws_route`, driven by the list of
messages the client will send (an exhausted list models the client
disconnecting, which ends the session via `WebSocketDisconnect`). A message
failing validation is answered with one Output whose `result` is the
default-coerced `''` (`dflt`) and whose `error` is the validation detail,
without reaching the function; a validated message is dispatched, and a
generator-mode dispatch that exhausts closes the session and stops consuming
messages (`break`). -/
def wsLoop {Input α : Type} (dflt : α) (dp : WsDispatch Input α) :
    Env → List (ClientMsg Input) → WsRun Input α
  | env, [] => { events := [], calls := [], finalEnv := env }
  | env, ClientMsg.invalid detail :: rest =>
    let k := wsLoop dflt dp env rest
    { k with events := WsEvent.sendOutput dflt detail :: k.events }
  | env, ClientMsg.valid inp envs :: rest =>
    let s := wsDispatchStep dp inp envs env
    if s.2.1 then { events := s.1, calls := [inp], finalEnv := s.2.2 }
    else
      let k := wsLoop dflt dp s.2.2 rest
      { events := s.1 ++ k.events, calls := inp :: k.calls, finalEnv := k.finalEnv }

/-- A Python return-type annotation as `_get_result_type` inspects it: a
parameterized generic (`__origin__` present, together with its `__args__`
list), an iterator-style object (`__next__` present, together with the
optional return annotation of that `__next__` method), or any other plain
type. -/
inductive PyType where
  | plain (name : String)
  | generic (originName : String) (args : List PyType)
  | iterator (nextReturn : Option PyType)

/-- `_get_result_type`: a missing return annotation defaults to `str`; a
generic takes `__args__[0]` (an empty `__args__` raises IndexError); an
iterator takes the return annotation of its `__next__` (a missing one raises
KeyError); any other annotation is returned unchanged. `Except.error` models
the raised exception. -/
def _get_result_type : Option PyType → Except String PyType
  | none => Except.ok (PyType.plain "str")
  | some (PyType.generic _ args) =>
    match args with
    | a :: _ => Except.ok a
    | [] => Except.error "IndexError: tuple index out of range"
  | some (PyType.iterator r) =>
    match r with
    | some rt => Except.ok rt
    | none => Except.error "KeyError: return"
  | some (PyType.plain n) => Except.ok (PyType.plain n)

/-- The `RouteType` enum of the gateway. -/
inductive RouteType where
  | http
  | websocket
deriving DecidableEq

/-- Python `str.title()` restricted to ASCII text: a letter is uppercased
when the previous character is not a letter and lowercased otherwise; other
characters pass through and reset the word boundary. -/
def pyTitleAux : List Char → Bool → List Char
  | [], _ => []
  | c :: cs, prevAlpha =>
    (if c.isAlpha then (if prevAlpha then c.toLower else c.toUpper) else c) ::
      pyTitleAux cs c.isAlpha

def pyTitle (s : String) : String := String.mk (pyTitleAux s.data false)

/-- The route name computed by `_register_route`:
`func.__name__.title().replace('_', '')`. -/
def routeName (funcName : String) : String := (pyTitle funcName).replace "_" ""

/-- A registered route: its name and type, plus the identity of the
`_ws_recv_lock` object created by the `_register_route` call that produced
it (`lockId` identifies one `asyncio.Lock()` allocation). -/
structure Route where
  name : String
  routeType : RouteType
  lockId : Nat
deriving DecidableEq

/-- The gateway's route table together with an allocation counter handing
out fresh identities for the per-registration lock objects. -/
structure Registry where
  routes : List Route
  nextLockId : Nat
deriving DecidableEq

/-- `_register_route`: compute the route name from the function name; if it
is already taken among the app's routes, skip (`return`, a no-op);
otherwise append the new route, whose handler closure captures a freshly
created `_ws_recv_lock`. -/
def _register_route (st : Registry) (funcName : String) (rt : RouteType) : Registry :=
  let n := routeName funcName
  if st.routes.any (fun r => r.name = n) then st
  else { routes := st.routes ++ [{ name := n, routeType := rt, lockId := st.nextLockId }],
         nextLockId := st.nextLockId + 1 }

/-- A WebSocket connection accepted on a route: `_create_ws_route` is a
closure over the route's `_ws_recv_lock`, so the connection's
receive-serialization token is the route's. -/
structure WsConnection where
  connId : Nat
  lockId : Nat
deriving DecidableEq

def acceptConnection (r : Route) (connId : Nat) : WsConnection :=
  { connId := connId, lockId := r.lockId }

/-- Primitive actions of one task on a WebSocket connection involving the
`_ws_recv_lock` token. -/
inductive LockAction where
  | acquire
  | release
  | sendPrompt (prompt : String)
  | recvText
deriving DecidableEq

/-- The body of `InputWrapper.__acall__`, the human-in-the-loop ask: build
the HumanPrompt, send it under the lock
(`async with _ws_recv_lock: await websocket.send_json(...)`), and only after
the lock is released perform the one `receive_text()` for the raw answer,
which is returned. -/
def inputWrapper_acall (prompt : String) : List LockAction :=
  [LockAction.acquire, LockAction.sendPrompt prompt, LockAction.release, LockAction.recvText]

/-- The session loop's receive:
`async with _ws_recv_lock: _data = await websocket.receive_json()`. -/
def mainLoopReceive : List LockAction :=
  [LockAction.acquire, LockAction.recvText, LockAction.release]

/-- Does every receive in the trace happen while the lock is held? `d` is
the current hold depth. -/
def recvsUnderLock : List LockAction → Nat → Bool
  | [], _ => true
  | LockAction.acquire :: rest, d => recvsUnderLock rest (d + 1)
  | LockAction.release :: rest, d => recvsUnderLock rest (d - 1)
  | LockAction.sendPrompt _ :: rest, d => recvsUnderLock rest d
  | LockAction.recvText :: rest, d => decide (0 < d) && recvsUnderLock rest d

def isRecv : LockAction → Bool
  | LockAction.recvText => true
  | _ => false

/-- The empty process environment, used by concrete witnesses. -/
def emptyEnv : Env := fun _ => none

/-- C1: for every HTTP invocation with a validated body (any `envs`, any
function behaviour): if the function returns normally, the handler returns
an OutputSchema whose `result` is the returned value and whose `error` is
the empty string; if the function raises, the handler still completes
(the embedding of the handler is a total function producing an OutputSchema)
with `result` the default coercion of the initial `''` and `error` the
exception's textual description. -/
theorem c1_http_result_and_error {α : Type} (dflt : α) (func : Env → FuncBehavior α)
    (envs : List (String × String)) (env : Env) :
    (∀ v, (func (setEnvs env envs)).outcome = Except.ok v →
      ((_create_http_route dflt func envs env).1.result = v ∧
        (_create_http_route dflt func envs env).1.error = "")) ∧
    (∀ e, (func (setEnvs env envs)).outcome = Except.error e →
      ((_create_http_route dflt func envs env).1.result = dflt ∧
        (_create_http_route dflt func envs env).1.error = e)) := by
  constructor
  · intro v hv
    constructor <;> simp [_create_http_route, withEnv, hv]
  · intro e he
    constructor <;> simp [_create_http_route, withEnv, he]

def okFunc : Env → FuncBehavior String :=
  fun _ => { prints := [], outcome := Except.ok "hello" }

/-- Witness for C1 at a concrete function that returns `"hello"`. -/
theorem c1_http_result_and_error_witness :
    (_create_http_route "" okFunc [] emptyEnv).1.result = "hello" ∧
    (_create_http_route "" okFunc [] emptyEnv).1.error = "" :=
  (c1_http_result_and_error "" okFunc [] emptyEnv).1 "hello" rfl

/-- C2: a lazy-sequence (generator-returning) function that yields exactly
`[a, b, c]` on a WebSocket session makes the server emit exactly three
Output messages whose results are `a`, `b`, `c` in that order, each with
empty error, then close the session and terminate the receive loop: any
remaining client messages `rest` are never consumed, and the function was
invoked exactly once. -/
theorem c2_ws_generator {Input α : Type} (dflt : α)
    (run : Input → Env → Except String (PlainResult α))
    (inp : Input) (envs : List (String × String)) (env : Env) (a b c : α)
    (rest : List (ClientMsg Input))
    (h : run inp (setEnvs env envs) = Except.ok (PlainResult.genRes [a, b, c] none)) :
    wsLoop dflt (WsDispatch.plain run) env (ClientMsg.valid inp envs :: rest) =
      { events := [WsEvent.sendOutput a "", WsEvent.sendOutput b "",
                   WsEvent.sendOutput c "", WsEvent.close],
        calls := [inp],
        finalEnv := restoreEnv (setEnvs env envs)
          (envs.map fun kv => (kv.1, env kv.1)) } := by
  simp [wsLoop, wsDispatchStep, withEnv, h]

def genRun : Unit → Env → Except String (PlainResult String) :=
  fun _ _ => Except.ok (PlainResult.genRes ["a", "b", "c"] none)

/-- Witness for C2 at a concrete generator yielding `["a", "b", "c"]`. -/
theorem c2_ws_generator_witness :
    wsLoop "" (WsDispatch.plain genRun) emptyEnv [ClientMsg.valid () []] =
      { events := [WsEvent.sendOutput "a" "", WsEvent.sendOutput "b" "",
                   WsEvent.sendOutput "c" "", WsEvent.close],
        calls := [()],
        finalEnv := emptyEnv } :=
  c2_ws_generator "" genRun () [] emptyEnv "a" "b" "c" [] rfl

/-- C3 counterexample: at the concrete prompt `"q"`, the single receive
performed by `InputWrapper.__acall__` happens at lock depth 0 — after the
receive-serialization token has been released — so the claim that the ask
performs its receive while holding the token is false; the token is held
only around the send of the HumanPrompt. -/
theorem c3_ask_receive_not_under_lock :
    recvsUnderLock (inputWrapper_acall "q") 0 = false := rfl

/-- C3 amended: the ask operation acquires the receive-serialization token,
sends the HumanPrompt while holding it, releases the token, and only then
performs exactly one receive for the raw answer — not holding the token —
and returns the answer text; the main session loop's receive, by contrast,
is performed under the token. -/
theorem c3_ask_lock_discipline (p : String) :
    inputWrapper_acall p =
      [LockAction.acquire, LockAction.sendPrompt p, LockAction.release,
        LockAction.recvText] ∧
    ((inputWrapper_acall p).filter isRecv).length = 1 ∧
    recvsUnderLock mainLoopReceive 0 = true ∧
    recvsUnderLock (inputWrapper_acall p) 0 = false :=
  ⟨rfl, rfl, rfl, rfl⟩

/-- C4: a WebSocket message failing validation makes the server send exactly
one Output message with the default-coerced empty result and the validation
detail as error, keeps the session open and continues with the following
client messages exactly as before, and never invokes the underlying function
for that message (the invocation list is unchanged). -/
theorem c4_ws_invalid {Input α : Type} (dflt : α) (dp : WsDispatch Input α)
    (env : Env) (detail : String) (rest : List (ClientMsg Input)) :
    (wsLoop dflt dp env (ClientMsg.invalid detail :: rest)).events =
      WsEvent.sendOutput dflt detail :: (wsLoop dflt dp env rest).events ∧
    (wsLoop dflt dp env (ClientMsg.invalid detail :: rest)).calls =
      (wsLoop dflt dp env rest).calls ∧
    (wsLoop dflt dp env (ClientMsg.invalid detail :: rest)).finalEnv =
      (wsLoop dflt dp env rest).finalEnv := by
  refine ⟨?_, ?_, ?_⟩ <;> simp [wsLoop]

theorem register_route_of_taken (st : Registry) (f : String) (rt : RouteType)
    (h : st.routes.any (fun r => r.name = routeName f) = true) :
    _register_route st f rt = st := by
  simp [_register_route, h]

theorem register_route_of_fresh (st : Registry) (f : String) (rt : RouteType)
    (h : st.routes.any (fun r => r.name = routeName f) = false) :
    _register_route st f rt =
      { routes := st.routes ++
          [{ name := routeName f, routeType := rt, lockId := st.nextLockId }],
        nextLockId := st.nextLockId + 1 } := by
  simp [_register_route, h]

/-- C5: route registration with a colliding name is a no-op (the registry is
unchanged, so the first registration wins, no route is added and none is
modified); registering the same function name twice is idempotent; and when
the name was fresh, after registering twice exactly one route with that name
is active. -/
theorem c5_register_route_noop (st : Registry) (f : String) (rt rt' : RouteType) :
    (st.routes.any (fun r => r.name = routeName f) = true →
      _register_route st f rt = st) ∧
    _register_route (_register_route st f rt) f rt' = _register_route st f rt ∧
    (st.routes.any (fun r => r.name = routeName f) = false →
      ((_register_route (_register_route st f rt) f rt').routes.filter
          (fun r => r.name = routeName f)).length = 1) := by
  refine ⟨fun h => register_route_of_taken st f rt h, ?_, ?_⟩
  · cases hb : st.routes.any (fun r => r.name = routeName f) with
    | true =>
      rw [register_route_of_taken st f rt hb]
      exact register_route_of_taken st f rt' hb
    | false =>
      rw [register_route_of_fresh st f rt hb]
      exact register_route_of_taken _ f rt' (by simp)
  · intro h
    rw [register_route_of_fresh st f rt h,
      register_route_of_taken _ f rt' (by simp)]
    simp only [List.filter_append]
    have hnil : st.routes.filter (fun r => r.name = routeName f) = [] := by
      rw [List.filter_eq_nil_iff]
      intro r hr
      simpa using List.any_eq_false.mp h r hr
    simp [hnil]

/-- Witness for C5: registering `"hitl"` twice into the empty registry
leaves exactly one active route with that name. -/
theorem c5_register_route_noop_witness :
    ((_register_route (_register_route { routes := [], nextLockId := 0 }
        "hitl" RouteType.websocket) "hitl" RouteType.http).routes.filter
      (fun r => r.name = routeName "hitl")).length = 1 :=
  (c5_register_route_noop { routes := [], nextLockId := 0 } "hitl"
    RouteType.websocket RouteType.http).2.2 rfl

/-- C6: the environment scope guard runs the body on the environment with
every override applied (and, for duplicate-free override keys as produced by
a dict, every overridden variable reads its overridden value during the
call), and on every exit path — the body's outcome, normal or raising, is
arbitrary — the prior environment is restored exactly, a previously absent
key going back to absent. -/
theorem c6_env_guard {γ : Type} (ov : List (String × String))
    (body : Env → Except String γ) (env : Env)
    (hnd : (ov.map Prod.fst).Nodup) :
    (withEnv ov body env).1 = body (setEnvs env ov) ∧
    (∀ k v, (k, v) ∈ ov → setEnvs env ov k = some v) ∧
    (∀ k, (withEnv ov body env).2 k = env k) := by
  refine ⟨rfl, ?_, ?_⟩
  · intro k v hm
    rw [setEnvs_apply, lookupLast_of_nodup ov k v hnd hm]
  · intro k
    exact withEnv_snd ov body env k

/-- Witness for C6: one override on the empty environment, with a raising
body; the override is visible inside and gone afterwards. -/
theorem c6_env_guard_witness :
    setEnvs emptyEnv [("A", "1")] "A" = some "1" ∧
    (withEnv [("A", "1")] (fun _ => (Except.error "boom" : Except String Nat))
      emptyEnv).2 "A" = emptyEnv "A" :=
  ⟨(c6_env_guard [("A", "1")] (fun _ => (Except.error "boom" : Except String Nat))
      emptyEnv (by simp)).2.1 "A" "1" (by simp),
    (c6_env_guard [("A", "1")] (fun _ => (Except.error "boom" : Except String Nat))
      emptyEnv (by simp)).2.2 "A"⟩

/-- C7 counterexample: for the concrete annotation "iterator object whose
step method carries no return annotation", `_get_result_type` raises
(KeyError) instead of falling back to `str`, so resolution — and with it
registration — can fail for an unusual return type, refuting the claim's
fallback clause. -/
theorem c7_unresolvable_raises :
    _get_result_type (some (PyType.iterator none)) =
      Except.error "KeyError: return" := rfl

/-- C7 amended: a parameterized generic resolves to its first type argument,
an iterator object with an annotated step resolves to that annotation, any
other annotation is used directly, and a missing annotation defaults to
string; but an unresolvable annotation — a generic with no type arguments,
or an iterator whose step has no annotation — raises rather than falling
back to string, so registration is not total. -/
theorem c7_result_type_resolution (o n : String) (a rt : PyType) (args : List PyType) :
    _get_result_type none = Except.ok (PyType.plain "str") ∧
    _get_result_type (some (PyType.generic o (a :: args))) = Except.ok a ∧
    _get_result_type (some (PyType.iterator (some rt))) = Except.ok rt ∧
    _get_result_type (some (PyType.plain n)) = Except.ok (PyType.plain n) ∧
    _get_result_type (some (PyType.generic o [])) =
      Except.error "IndexError: tuple index out of range" ∧
    _get_result_type (some (PyType.iterator none)) =
      Except.error "KeyError: return" :=
  ⟨rfl, rfl, rfl, rfl, rfl, rfl⟩

/-- C8: dispatching an externally-streaming function over WebSocket sends,
for each token the function pushes through its handles, exactly one Output
message with that token as result and empty error; the function's returned
value `ret` contributes nothing to the trace (it appears only in the
hypothesis, never in the emitted events); and after the function returns the
session is not closed — the loop continues to await and process the
remaining client messages. -/
theorem c8_ws_streaming {Input α : Type} (dflt : α)
    (run : Input → Env → StreamRun α) (inp : Input)
    (envs : List (String × String)) (env : Env)
    (rest : List (ClientMsg Input)) (tokens : List α) (ret : α)
    (h : run inp (setEnvs env envs) = { tokens := tokens, outcome := Except.ok ret }) :
    wsLoop dflt (WsDispatch.streaming run) env (ClientMsg.valid inp envs :: rest) =
      { events := (tokens.map fun t => WsEvent.sendOutput t "") ++
          (wsLoop dflt (WsDispatch.streaming run)
            (restoreEnv (setEnvs env envs) (envs.map fun kv => (kv.1, env kv.1)))
            rest).events,
        calls := inp :: (wsLoop dflt (WsDispatch.streaming run)
            (restoreEnv (setEnvs env envs) (envs.map fun kv => (kv.1, env kv.1)))
            rest).calls,
        finalEnv := (wsLoop dflt (WsDispatch.streaming run)
            (restoreEnv (setEnvs env envs) (envs.map fun kv => (kv.1, env kv.1)))
            rest).finalEnv } := by
  simp [wsLoop, wsDispatchStep, withEnv, h]

def streamRunFn : Unit → Env → StreamRun String :=
  fun _ _ => { tokens := ["t1", "t2"], outcome := Except.ok "ret" }

/-- Witness for C8 at a concrete streaming function pushing two tokens. -/
theorem c8_ws_streaming_witness :
    wsLoop "" (WsDispatch.streaming streamRunFn) emptyEnv [ClientMsg.valid () []] =
      { events := [WsEvent.sendOutput "t1" "", WsEvent.sendOutput "t2" ""],
        calls := [()],
        finalEnv := emptyEnv } :=
  c8_ws_streaming "" streamRunFn () [] emptyEnv [] ["t1", "t2"] "ret" rfl

/-- C9 counterexample: register one WebSocket route into the empty registry;
the two distinct connections 0 and 1 accepted on that route hold the same
`_ws_recv_lock` identity, refuting the claim that two distinct concurrent
connections to the same route hold distinct serialization tokens. -/
theorem c9_shared_lock_across_connections :
    (_register_route { routes := [], nextLockId := 0 } "hitl"
        RouteType.websocket).routes =
      [{ name := routeName "hitl", routeType := RouteType.websocket, lockId := 0 }] ∧
    (0 : Nat) ≠ 1 ∧
    (acceptConnection
        { name := routeName "hitl", routeType := RouteType.websocket, lockId := 0 }
        0).lockId =
      (acceptConnection
        { name := routeName "hitl", routeType := RouteType.websocket, lockId := 0 }
        1).lockId :=
  ⟨rfl, by decide, rfl⟩

/-- C9 amended: the receive-serialization token is per-route state created
by the `_register_route` call, not per connection: every connection accepted
on a route shares that route's token, and a fresh (non-colliding)
registration allocates a fresh token identity from the registry counter. -/
theorem c9_lock_per_route (r : Route) (i j : Nat) (st : Registry) (f : String)
    (rt : RouteType)
    (h : st.routes.any (fun q => q.name = routeName f) = false) :
    (acceptConnection r i).lockId = (acceptConnection r j).lockId ∧
    (_register_route st f rt).routes =
      st.routes ++
        [{ name := routeName f, routeType := rt, lockId := st.nextLockId }] ∧
    (_register_route st f rt).nextLockId = st.nextLockId + 1 := by
  refine ⟨rfl, ?_, ?_⟩ <;> rw [register_route_of_fresh st f rt h]

/-- Witness for C9 amended: a concrete route and the empty registry. -/
theorem c9_lock_per_route_witness :
    (acceptConnection
        { name := "Hitl", routeType := RouteType.websocket, lockId := 5 } 0).lockId =
      (acceptConnection
        { name := "Hitl", routeType := RouteType.websocket, lockId := 5 } 1).lockId ∧
    (_register_route { routes := [], nextLockId := 0 } "hitl"
        RouteType.websocket).routes =
      ([] : List Route) ++
        [{ name := routeName "hitl", routeType := RouteType.websocket, lockId := 0 }] ∧
    (_register_route { routes := [], nextLockId := 0 } "hitl"
        RouteType.websocket).nextLockId = 0 + 1 :=
  c9_lock_per_route { name := "Hitl", routeType := RouteType.websocket, lockId := 5 }
    0 1 { routes := [], nextLockId := 0 } "hitl" RouteType.websocket rfl

/-- C10: when the function raises during an HTTP invocation, the `stdout`
field of the returned OutputSchema is the newline-join of the lines the
function itself printed followed by the handler's own diagnostic
`Got an exception: <error text>` — the handler's exception print happens
inside the capture region, so it is surfaced to the caller as part of
`stdout`. -/
theorem c10_http_stdout_on_raise {α : Type} (dflt : α) (func : Env → FuncBehavior α)
    (envs : List (String × String)) (env : Env) (e : String)
    (h : (func (setEnvs env envs)).outcome = Except.error e) :
    (_create_http_route dflt func envs env).1.stdout =
      String.intercalate "\n"
        ((func (setEnvs env envs)).prints ++ ["Got an exception: " ++ e]) := by
  simp [_create_http_route, withEnv, h]

def raisingFunc : Env → FuncBehavior String :=
  fun _ => { prints := ["hi"], outcome := Except.error "boom" }

/-- Witness for C10 at a concrete function that prints `"hi"` and raises
with message `"boom"`. -/
theorem c10_http_stdout_on_raise_witness :
    (_create_http_route "" raisingFunc [] emptyEnv).1.stdout =
      String.intercalate "\n"
        ((raisingFunc (setEnvs emptyEnv [])).prints ++ ["Got an exception: " ++ "boom"]) :=
  c10_http_stdout_on_raise "" raisingFunc [] emptyEnv "boom" rfl

end LCServe
